import Mathlib

/-!
Verification development for the financial event-detection engine of the
tradingAgents-multi repository.

The definitions below are shallow embeddings of the Python source:

* `webServer/tools/event.py`                — `FinancialEvent.generate_event_id`
* `webServer/tools/trading_event.py`        — `DailyIndicatorCalculator` thresholds,
                                              `TradingEventDetector.detect`
* `webServer/tools/company_event.py`        — `CompanyIndicatorCalculator` thresholds
* `webServer/tools/events_tools.py`         — `EventManager.detect_all_events`
* `webServer/tools/news_event.py`           — `MacroNewsEventDetector._judge_sentiment`
* `webServer/tools/sentiment_event.py`      — `SentimentEventDetector.detect`
* `webServer/services/scheduler/tasks/user_rule.py`
                                            — rule matching, 5-minute window,
                                              `generate_and_save_reminder`
* `webServer/services/scheduler/tasks/events_find_task.py`
                                            — dedup upsert into the event store

Python `float` values that the numeric code manipulates are modelled as exact
rationals (`ℚ`); machine strings are Lean `String`s (the ASCII fragment of
Python's `str.lower`/`str.strip` is embedded explicitly below).  Stateful
store operations are modelled as explicit functions on a list of documents,
and Python exceptions as `Except`.
-/

namespace TradingAgents

/-! ### ASCII string helpers (Python `str.lower`, `str.strip`, `in`) -/

/-- One character of Python's `str.lower`, restricted to the ASCII letters the
rule/event fields use: an upper-case ASCII letter is shifted by 32, everything
else is untouched. -/
def lowerChar (c : Char) : Char :=
  if 65 ≤ c.toNat ∧ c.toNat ≤ 90 then Char.ofNat (c.toNat + 32) else c

/-- Python `s.lower()` on ASCII data: `lowerChar` applied to every character. -/
def lowerStr (s : String) : String :=
  ⟨s.data.map lowerChar⟩

/-- Python's substring test `needle in hay` at the head position. -/
def matchesAtHead : List Char → List Char → Bool
  | [], _ => true
  | _ :: _, [] => false
  | a :: as, b :: bs => a == b && matchesAtHead as bs

/-- Python's substring test `needle in hay` (any position). -/
def containsSub (needle : List Char) : List Char → Bool
  | [] => matchesAtHead needle []
  | b :: bs => matchesAtHead needle (b :: bs) || containsSub needle bs

/-- Substring test on `String`s, wrapping `containsSub`. -/
def strContains (hay needle : String) : Bool :=
  containsSub needle.data hay.data

/-- The ASCII whitespace characters removed by Python's `str.strip()`. -/
def pyIsSpace (c : Char) : Bool :=
  c == ' ' || c == '\t' || c == '\n' || c == '\r' || c == '\x0b' || c == '\x0c'

/-- Python `s.strip()`: drop leading and trailing whitespace. -/
def stripStr (s : String) : String :=
  ⟨((s.data.dropWhile pyIsSpace).reverse.dropWhile pyIsSpace).reverse⟩

/-! ### Data model: user rules and stored events

`UserRule` carries the three matching fields of a rule document
(`user_rule.py`); `StoredEvent` carries the fields of a stored event document
that rule matching reads (`events` collection). -/

structure UserRule where
  event_type : String
  event_subtype : String
  related_stock : String
deriving DecidableEq, Repr

structure StoredEvent where
  event_type : String
  event_subtype : String
  symbol : String
  event_time : String
deriving DecidableEq, Repr

/-- The completeness check of `get_recent_events_by_user_rule` (line 259):
rules with an empty `event_type`, `event_subtype` or (stripped)
`related_stock` are skipped. -/
def ruleComplete (rule : UserRule) : Bool :=
  !(lowerStr rule.event_type == "") && !(lowerStr rule.event_subtype == "")
    && !(stripStr rule.related_stock == "")

/-- The field part of the event query built by `get_recent_events_by_user_rule`
(lines 252-268): the stored event's `event_type`/`event_subtype` must equal the
**lower-cased** rule fields exactly, and `symbol` must equal the **stripped**
`related_stock` exactly. -/
def ruleFieldQueryMatch (rule : UserRule) (e : StoredEvent) : Bool :=
  e.event_type == lowerStr rule.event_type
    && e.event_subtype == lowerStr rule.event_subtype
    && e.symbol == stripStr rule.related_stock

/-- The matching predicate in the words of the spec (§4.5, step 2):
`event.event_type == rule.event_type` case-insensitively,
`event.event_subtype == rule.event_subtype` case-insensitively, and
`event.symbol == rule.related_stock` exactly after trimming.  Used only to be
compared with `ruleFieldQueryMatch`, the predicate the code implements. -/
def ruleFieldSpecMatch (rule : UserRule) (e : StoredEvent) : Bool :=
  lowerStr e.event_type == lowerStr rule.event_type
    && lowerStr e.event_subtype == lowerStr rule.event_subtype
    && e.symbol == stripStr rule.related_stock

/-! Basic facts about `lowerChar`/`lowerStr`. -/

theorem toNat_ofNat_lowercase {m : ℕ} (h1 : 97 ≤ m) (h2 : m ≤ 122) :
    (Char.ofNat m).toNat = m := by
  interval_cases m <;> decide

theorem lowerChar_toNat_of_upper {c : Char} (h : 65 ≤ c.toNat ∧ c.toNat ≤ 90) :
    (lowerChar c).toNat = c.toNat + 32 := by
  show (if 65 ≤ c.toNat ∧ c.toNat ≤ 90 then Char.ofNat (c.toNat + 32) else c).toNat
      = c.toNat + 32
  rw [if_pos h]
  exact toNat_ofNat_lowercase (by omega) (by omega)

theorem lowerChar_idem (c : Char) : lowerChar (lowerChar c) = lowerChar c := by
  by_cases h : 65 ≤ c.toNat ∧ c.toNat ≤ 90
  · have hn : (lowerChar c).toNat = c.toNat + 32 := lowerChar_toNat_of_upper h
    have hout : ¬(65 ≤ (lowerChar c).toNat ∧ (lowerChar c).toNat ≤ 90) := by omega
    show (if 65 ≤ (lowerChar c).toNat ∧ (lowerChar c).toNat ≤ 90
        then Char.ofNat ((lowerChar c).toNat + 32) else lowerChar c) = lowerChar c
    rw [if_neg hout]
  · have hc : lowerChar c = c := by
      show (if 65 ≤ c.toNat ∧ c.toNat ≤ 90 then Char.ofNat (c.toNat + 32) else c) = c
      rw [if_neg h]
    rw [hc]
    exact hc

theorem lowerStr_idem (s : String) : lowerStr (lowerStr s) = lowerStr s := by
  show (⟨(s.data.map lowerChar).map lowerChar⟩ : String) = ⟨s.data.map lowerChar⟩
  rw [List.map_map]
  congr 1
  exact List.map_congr_left fun c _ => lowerChar_idem c

/-! ### Event id generation (`event.py`, `FinancialEvent.generate_event_id`) -/

/-- The compaction `event_time.replace("-", "").replace(":", "").replace(" ", "_")[:15]`
of `generate_event_id`: single-character replacements are removal (for `"-"`, `":"`)
and substitution (for `" "`), followed by truncation to the first 15 characters. -/
def compactTime (event_time : String) : String :=
  ⟨(((event_time.data.filter fun c => c != '-').filter fun c => c != ':').map
      fun c => if c == ' ' then '_' else c).take 15⟩

/-- `FinancialEvent.generate_event_id` (event.py lines 84-88). -/
def generate_event_id (symbol event_time event_subtype : String) : String :=
  symbol ++ "_" ++ compactTime event_time ++ "_" ++ event_subtype

/-! ### Calendar timestamps (`datetime.strptime(..., "%Y-%m-%d %H:%M:%S")`)

`user_rule.py` parses event times with `datetime.strptime` and compares
`datetime` values; a `datetime` is embedded as its six calendar fields, and
comparison/`timedelta` arithmetic as arithmetic on the total second count of
the proleptic Gregorian calendar. -/

structure DateTime where
  year : ℕ
  month : ℕ
  day : ℕ
  hour : ℕ
  minute : ℕ
  second : ℕ
deriving DecidableEq, Repr

/-- Gregorian leap-year rule, as used by `datetime`'s calendar validation. -/
def isLeapYear (y : ℕ) : Bool :=
  (y % 4 == 0 && y % 100 != 0) || y % 400 == 0

/-- Days in a month of a given year (for `datetime`'s day-of-month check). -/
def daysInMonth (y m : ℕ) : ℕ :=
  if m == 2 then (if isLeapYear y then 29 else 28)
  else if m == 4 || m == 6 || m == 9 || m == 11 then 30
  else 31

/-- Day number of a date in the proleptic Gregorian calendar
(`datetime.toordinal` minus one). -/
def toOrdinalDay (dt : DateTime) : ℕ :=
  365 * (dt.year - 1) + (dt.year - 1) / 4 - (dt.year - 1) / 100 + (dt.year - 1) / 400
    + (((List.range (dt.month - 1)).map fun i => daysInMonth dt.year (i + 1)).sum)
    + (dt.day - 1)

/-- Total seconds of a `datetime`; `datetime` comparison and `timedelta`
subtraction correspond to comparison and subtraction of this count. -/
def dtToSecs (dt : DateTime) : ℕ :=
  toOrdinalDay dt * 86400 + dt.hour * 3600 + dt.minute * 60 + dt.second

def digitVal (c : Char) : Option ℕ :=
  if c.isDigit then some (c.toNat - 48) else none

/-- `strptime`'s `%Y`: exactly four digits. -/
def parse4Digits : List Char → Option (ℕ × List Char)
  | a :: b :: c :: d :: rest =>
    match digitVal a, digitVal b, digitVal c, digitVal d with
    | some x, some y, some z, some w => some (x * 1000 + y * 100 + z * 10 + w, rest)
    | _, _, _, _ => none
  | _ => none

/-- `strptime`'s `%m`/`%d`/`%H`/`%M`/`%S`: one or two digits (value ranges are
checked afterwards, as the `datetime` constructor does). -/
def parse2Digits : List Char → Option (ℕ × List Char)
  | a :: b :: rest =>
    match digitVal a, digitVal b with
    | some x, some y => some (x * 10 + y, rest)
    | some x, none => some (x, b :: rest)
    | none, _ => none
  | [a] =>
    match digitVal a with
    | some x => some (x, [])
    | none => none
  | [] => none

def expectChar (c : Char) : List Char → Option (List Char)
  | d :: rest => if d == c then some rest else none
  | [] => none

/-- `datetime.strptime(s, "%Y-%m-%d %H:%M:%S")`: returns `none` exactly where
Python raises `ValueError` (format mismatch, trailing characters, or values
outside the calendar ranges). -/
def parseEventTime (s : String) : Option DateTime := do
  let (y, r1) ← parse4Digits s.data
  let r2 ← expectChar '-' r1
  let (mo, r3) ← parse2Digits r2
  let r4 ← expectChar '-' r3
  let (d, r5) ← parse2Digits r4
  let r6 ← expectChar ' ' r5
  let (h, r7) ← parse2Digits r6
  let r8 ← expectChar ':' r7
  let (mi, r9) ← parse2Digits r8
  let r10 ← expectChar ':' r9
  let (sec, r11) ← parse2Digits r10
  if r11 = [] ∧ 1 ≤ y ∧ 1 ≤ mo ∧ mo ≤ 12 ∧ 1 ≤ d ∧ d ≤ daysInMonth y mo
      ∧ h ≤ 23 ∧ mi ≤ 59 ∧ sec ≤ 59 then
    some ⟨y, mo, d, h, mi, sec⟩
  else
    none

/-- The in-process window check of `get_recent_events_by_user_rule`
(lines 276-284): parse `event_time` with `strptime` — an unparseable time is
skipped — and keep the event iff `event_time >= now - timedelta(minutes=5)`,
i.e. iff its second count is at least `nowSecs - 300`.  (The store-side
`$gte` pre-filter queries the same bound; the Python loop re-checks it.) -/
def eventInWindow (nowSecs : ℕ) (e : StoredEvent) : Bool :=
  match parseEventTime e.event_time with
  | none => false
  | some dt => decide (nowSecs ≤ dtToSecs dt + 300)

/-- One rule's matched events (field query plus window re-check), as collected
by the loop of `get_recent_events_by_user_rule`. -/
def matchedEventsForRule (nowSecs : ℕ) (rule : UserRule) (events : List StoredEvent) :
    List StoredEvent :=
  if ruleComplete rule then
    events.filter fun e => ruleFieldQueryMatch rule e && eventInWindow nowSecs e
  else []

/-! ### Baseline threshold calculators (`trading_event.py`, `company_event.py`)

`pandas.Series.quantile(q)` (with `q ∈ [0,1]`) and `numpy.percentile(xs, p)`
(with `p ∈ [0,100]`) both use linear interpolation on the sorted sample; both
are embedded below over exact rationals. -/

def insertSorted (x : ℚ) : List ℚ → List ℚ
  | [] => [x]
  | y :: ys => if x ≤ y then x :: y :: ys else y :: insertSorted x ys

def sortAsc (xs : List ℚ) : List ℚ :=
  xs.foldr insertSorted []

/-- Linear-interpolation quantile at fraction `q ∈ [0,1]` of a sample
(`pandas.Series.quantile`): position `q * (n-1)` in the sorted sample,
interpolating between the two neighbouring order statistics. -/
def quantileInterp (q : ℚ) (xs : List ℚ) : ℚ :=
  let s := sortAsc xs
  let n := s.length
  if n = 0 then 0
  else
    let pos : ℚ := q * ((n : ℚ) - 1)
    let i : ℕ := (⌊pos⌋).toNat
    let lo := s.getD i 0
    let hi := s.getD (i + 1) lo
    lo + (pos - (i : ℚ)) * (hi - lo)

/-- `numpy.percentile(xs, p)`: `p` ranges over `[0, 100]`. -/
def npPercentile (p : ℚ) (xs : List ℚ) : ℚ :=
  quantileInterp (p / 100) xs

/-- `DailyIndicatorCalculator._calc_price_jump_threshold` (trading_event.py
lines 114-118): the 0.9 quantile of the absolute daily percentage changes over
the last 60 rows.  The input list is the non-missing `涨跌幅` column. -/
def calc_price_jump_threshold (dailyReturns : List ℚ) : ℚ :=
  quantileInterp (9 / 10) ((dailyReturns.drop (dailyReturns.length - 60)).map abs)

/-- `DailyIndicatorCalculator._calc_volatility_threshold` (trading_event.py
lines 126-138): the 0.95 quantile of the absolute daily returns over the last
100 rows, or the hard-coded default 0.02 when the sample is empty.  The input
list is the non-missing `returns` column. -/
def calc_volatility_threshold (dailyReturns : List ℚ) : ℚ :=
  let sample := (dailyReturns.drop (dailyReturns.length - 100)).map abs
  if sample.isEmpty then 1 / 50
  else quantileInterp (95 / 100) sample

/-- `CompanyIndicatorCalculator._calc_profit_change_threshold`
(company_event.py lines 101-107) on the extracted absolute percentage sample:
the default 20.0 when extraction yields nothing, and otherwise
`max(np.percentile(values, 90/100), 20.0)` — the code divides the configured
percentile 90 by 100 *before* the `np.percentile` call, whose argument ranges
over 0-100. -/
def calc_profit_change_threshold (profit_changes : List ℚ) : ℚ :=
  if profit_changes.isEmpty then 20
  else max (npPercentile (90 / 100) profit_changes) 20

/-- `CompanyIndicatorCalculator._calc_unlock_ratio_threshold`
(company_event.py lines 133-139) on the extracted percentage sample, with
default 5.0; the percentile argument is divided by 100 exactly as above. -/
def calc_unlock_ratio_threshold (unlock_values : List ℚ) : ℚ :=
  if unlock_values.isEmpty then 5
  else max (npPercentile (90 / 100) unlock_values) 5

/-- The profit-change threshold in the words of the spec (§4.1): the true 90th
percentile of the extracted values, clamped below by the default 20. -/
def specProfitChangeThreshold (profit_changes : List ℚ) : ℚ :=
  if profit_changes.isEmpty then 20
  else max (quantileInterp (90 / 100) profit_changes) 20

/-- The unlock-ratio threshold in the words of the spec (§4.1): the true 90th
percentile of the extracted values, clamped below by the default 5. -/
def specUnlockRatioThreshold (unlock_values : List ℚ) : ℚ :=
  if unlock_values.isEmpty then 5
  else max (quantileInterp (90 / 100) unlock_values) 5

/-! ### Event manager sweep (`events_tools.py`) and trading-detector skeleton

`EventManager.detect_all_events` (lines 22-41) calls the five detectors in
registration order and concatenates their lists with `extend`; it contains no
`try`/`except`, so a detector call that raises propagates.  Each detector call
is embedded as an `Except` value (its outcome), and the sweep as the
sequencing of those outcomes. -/

def detect_all_events {ε α : Type}
    (tradingResult companyResult industryResult sentimentResult newsResult :
      Except ε (List α)) : Except ε (List α) := do
  let t ← tradingResult
  let c ← companyResult
  let i ← industryResult
  let s ← sentimentResult
  let n ← newsResult
  pure ((((t ++ c) ++ i) ++ s) ++ n)

/-- `TradingEventDetector.detect` (trading_event.py lines 166-189), with the
data providers and the five `_detect_*` steps abstracted: a data-provider
failure for the symbol is caught inside `_get_daily_data` /
`_get_real_time_data` (they return `None`) and `detect` returns the empty
list; with both inputs available it returns the events computed from this
symbol's own data. -/
def tradingDetect {Ind Rt α : Type}
    (getDailyIndicators : String → Option Ind)
    (getRealTimeData : String → Option Rt)
    (detectFromData : String → Ind → Rt → List α)
    (symbol : String) : List α :=
  match getDailyIndicators symbol with
  | none => []
  | some ind =>
    match getRealTimeData symbol with
    | none => []
    | some rt => detectFromData symbol ind rt

/-! ### Event store dedup upsert (`events_find_task.py`)

The store operation `UpdateOne({event_id, event_time}, {"$setOnInsert": doc},
upsert=True)` inserts the document when no stored document carries the same
`(event_id, event_time)` key, and does nothing at all otherwise
(`$setOnInsert` writes no field on a match).  The store is modelled as the
list of stored documents. -/

structure EventDoc where
  event_id : String
  event_time : String
  symbol : String
  event_type : String
  event_subtype : String
  event_description : String
deriving DecidableEq, Repr

/-- The upsert filter `{"event_id": id, "event_time": t}`. -/
def keyMatches (id t : String) (d : EventDoc) : Bool :=
  d.event_id == id && d.event_time == t

/-- One `UpdateOne(filter, {"$setOnInsert": doc}, upsert=True)`. -/
def upsertIfAbsent (store : List EventDoc) (doc : EventDoc) : List EventDoc :=
  if store.any (keyMatches doc.event_id doc.event_time) then store
  else store ++ [doc]

/-- `bulk_write(operations, ordered=False)` over a batch of such upserts:
each operation has the same per-document semantics (`ordered=False` only
affects error reporting, which the batch here cannot trigger). -/
def bulkUpsertIfAbsent (store : List EventDoc) (docs : List EventDoc) : List EventDoc :=
  docs.foldl upsertIfAbsent store

/-- The number of stored documents carrying a given `(event_id, event_time)`
key. -/
def countKey (store : List EventDoc) (id t : String) : ℕ :=
  store.countP (keyMatches id t)

/-! ### Macro-news sentiment classification (`news_event.py`) -/

/-- `MacroNewsEventDetector.SENTIMENT_KEYWORDS["positive"]`. -/
def positiveKeywords : List String :=
  ["上调", "增长", "开放", "批准", "上涨", "利好", "稳定", "提升"]

/-- `MacroNewsEventDetector.SENTIMENT_KEYWORDS["negative"]`. -/
def negativeKeywords : List String :=
  ["下调", "下跌", "风险", "危机", "暴跌", "亏损", "处罚"]

/-- `pos_count` of `_judge_sentiment`: the number of positive keywords whose
lower-cased form occurs in the lower-cased news text. -/
def posKeywordCount (content : String) : ℕ :=
  positiveKeywords.countP fun kw => strContains (lowerStr content) (lowerStr kw)

/-- `neg_count` of `_judge_sentiment`. -/
def negKeywordCount (content : String) : ℕ :=
  negativeKeywords.countP fun kw => strContains (lowerStr content) (lowerStr kw)

/-- `MacroNewsEventDetector._judge_sentiment` (news_event.py lines 194-212). -/
def judge_sentiment (content : String) : String :=
  if 2 ≤ posKeywordCount content then "positive"
  else if 2 ≤ negKeywordCount content then "negative"
  else "neutral"

/-! ### Reminder generation (`user_rule.py`, `generate_and_save_reminder`) -/

structure ReminderStats where
  total_rule_event_pairs : ℕ
  gpt_no_reminder_count : ℕ
  saved_reminder_count : ℕ
  failed_count : ℕ
deriving DecidableEq, Repr

/-- The notification document inserted into `stock_news`
(user_rule.py lines 396-404). -/
structure ReminderDoc where
  trade_date : String
  company_of_interest : String
  report : String
  label : String
  user_id : String
  is_read : String
  date : String
deriving DecidableEq, Repr

/-- One entry of `matched_result["matched_events"]`: a rule together with its
matched events, most recent first. -/
structure MatchedItem where
  rule : UserRule
  events : List StoredEvent
deriving DecidableEq, Repr

def initialStats : ReminderStats := ⟨0, 0, 0, 0⟩

def mkReminderDoc (user_id nowStr content : String) (event : StoredEvent) : ReminderDoc :=
  ⟨event.event_time, event.symbol, content, "事件提醒", user_id, "NO", nowStr⟩

/-- One iteration of the loop of `generate_and_save_reminder`
(lines 376-415): take the first (most recent) event of the item, call the
text-generation collaborator, and either count a failure, count the sentinel
`暂无提醒` without persisting, or persist exactly one notification document.
The collaborator call is an `Except` (it may raise). -/
def processMatchedItem (gptCall : UserRule → StoredEvent → Except String String)
    (user_id nowStr : String) (acc : ReminderStats × List ReminderDoc)
    (item : MatchedItem) : ReminderStats × List ReminderDoc :=
  match item.events with
  | [] => acc
  | event :: _ =>
    match gptCall item.rule event with
    | Except.error _ =>
      ({ acc.1 with
          total_rule_event_pairs := acc.1.total_rule_event_pairs + 1
          failed_count := acc.1.failed_count + 1 }, acc.2)
    | Except.ok content =>
      if content = "暂无提醒" then
        ({ acc.1 with
            total_rule_event_pairs := acc.1.total_rule_event_pairs + 1
            gpt_no_reminder_count := acc.1.gpt_no_reminder_count + 1 }, acc.2)
      else
        ({ acc.1 with
            total_rule_event_pairs := acc.1.total_rule_event_pairs + 1
            saved_reminder_count := acc.1.saved_reminder_count + 1 },
          acc.2 ++ [mkReminderDoc user_id nowStr content event])

/-- `generate_and_save_reminder` on the matched items of a user: the final
statistics and the list of notification documents inserted into the store. -/
def generate_and_save_reminder (gptCall : UserRule → StoredEvent → Except String String)
    (user_id nowStr : String) (items : List MatchedItem) :
    ReminderStats × List ReminderDoc :=
  items.foldl (processMatchedItem gptCall user_id nowStr) (initialStats, [])

/-- The notifications one matched item contributes (none on a collaborator
failure or the sentinel; exactly one otherwise). -/
def itemReminders (gptCall : UserRule → StoredEvent → Except String String)
    (user_id nowStr : String) (item : MatchedItem) : List ReminderDoc :=
  match item.events with
  | [] => []
  | event :: _ =>
    match gptCall item.rule event with
    | Except.error _ => []
    | Except.ok content =>
      if content = "暂无提醒" then [] else [mkReminderDoc user_id nowStr content event]

/-! ### Sentiment event detection (`sentiment_event.py`)

`SentimentEventDetector.detect` computes one `event_time` string for the whole
sweep via `_get_current_time_second` — today's date with the time replaced by
the fixed 08:56:30 — and stamps it on every emitted event.  Hot-list rows are
embedded with their numeric fields already passed through
`_safe_int_convert`/`_safe_float_convert`; the display-only
`event_description`/`trigger_rule`/`raw_data` fields are not modelled. -/

def pad2 (n : ℕ) : String :=
  if n < 10 then "0" ++ toString n else toString n

def pad4 (n : ℕ) : String :=
  if n < 10 then "000" ++ toString n
  else if n < 100 then "00" ++ toString n
  else if n < 1000 then "0" ++ toString n
  else toString n

/-- `strftime("%Y-%m-%d %H:%M:%S")` (zero-padded fields). -/
def formatDateTime (dt : DateTime) : String :=
  pad4 dt.year ++ "-" ++ pad2 dt.month ++ "-" ++ pad2 dt.day ++ " "
    ++ pad2 dt.hour ++ ":" ++ pad2 dt.minute ++ ":" ++ pad2 dt.second

/-- `EventDetector._get_current_time_second` (sentiment_event.py lines 45-52):
the current date with hour/minute/second replaced by the fixed 8:56:30. -/
def get_current_time_second (now : DateTime) : String :=
  formatDateTime { now with hour := 8, minute := 56, second := 30 }

structure SentimentConfig where
  rank_rise_threshold : Int
  rank_drop_threshold : Int
  top1_threshold : Int
  top10_threshold : Int
  top50_threshold : Int
  top100_threshold : Int
  price_rise_threshold : ℚ
  price_fall_threshold : ℚ
deriving Repr

/-- The `default_config` of `SentimentEventDetector.__init__`. -/
def defaultSentimentConfig : SentimentConfig :=
  ⟨1000, -1000, 1, 10, 50, 100, 9, -9⟩

/-- One row of the hot list, fields already converted. -/
structure HotRow where
  rank_change : Int
  current_rank : Int
  price_change : ℚ
  code : String
  name : String
deriving Repr

/-- A detected event (the fields rule matching and storage read). -/
structure FinancialEvent where
  event_id : String
  symbol : String
  event_type : String
  event_subtype : String
  event_time : String
  sentiment : String
  impact_level : String
deriving DecidableEq, Repr

/-- `_calculate_impact_level(deviation, "rank")`. -/
def calcImpactRank (deviation : Int) : String :=
  let a := deviation.natAbs
  if 1000 < a then "critical" else if 500 < a then "high"
  else if 100 < a then "medium" else "low"

/-- `_calculate_impact_level(deviation, "price")`. -/
def calcImpactPrice (deviation : ℚ) : String :=
  let a := |deviation|
  if 10 < a then "critical" else if 7 < a then "high"
  else if 3 < a then "medium" else "low"

def mkSentEvent (code subtype event_time sentiment impact : String) : FinancialEvent :=
  ⟨generate_event_id code event_time subtype, code, "sentiment", subtype,
    event_time, sentiment, impact⟩

/-- `_detect_rank_change_events` (lines 142-229). -/
def detect_rank_change_events (cfg : SentimentConfig) (rows : List HotRow)
    (event_time : String) : List FinancialEvent :=
  rows.flatMap fun r =>
    (if cfg.rank_rise_threshold ≤ r.rank_change then
      [mkSentEvent r.code "rank_rise_abnormal" event_time "positive"
        (calcImpactRank (r.rank_change - cfg.rank_rise_threshold))]
    else [])
    ++
    (if r.rank_change ≤ cfg.rank_drop_threshold then
      [mkSentEvent r.code "rank_drop_abnormal" event_time "negative"
        (calcImpactRank (r.rank_change - cfg.rank_drop_threshold))]
    else [])

/-- `_detect_top_rank_events` (lines 231-364). -/
def detect_top_rank_events (cfg : SentimentConfig) (rows : List HotRow)
    (event_time : String) : List FinancialEvent :=
  rows.flatMap fun r =>
    (if r.current_rank = cfg.top1_threshold then
      [mkSentEvent r.code "top1_rank" event_time "positive" "critical"]
    else [])
    ++
    (if 1 < r.current_rank ∧ r.current_rank ≤ cfg.top10_threshold then
      [mkSentEvent r.code "top10_rank" event_time "positive" "high"]
    else [])
    ++
    (if 10 < r.current_rank ∧ r.current_rank ≤ cfg.top50_threshold then
      [mkSentEvent r.code "top50_rank" event_time "positive" "medium"]
    else [])
    ++
    (if 50 < r.current_rank ∧ r.current_rank ≤ cfg.top100_threshold then
      [mkSentEvent r.code "top100_rank" event_time "positive" "low"]
    else [])

/-- `_detect_price_fluct_events` (lines 366-457). -/
def detect_price_fluct_events (cfg : SentimentConfig) (rows : List HotRow)
    (event_time : String) : List FinancialEvent :=
  rows.flatMap fun r =>
    (if cfg.price_rise_threshold ≤ r.price_change then
      [mkSentEvent r.code "price_rise_abnormal" event_time "positive"
        (calcImpactPrice (r.price_change - cfg.price_rise_threshold))]
    else [])
    ++
    (if r.price_change ≤ cfg.price_fall_threshold then
      [mkSentEvent r.code "price_fall_abnormal" event_time "negative"
        (calcImpactPrice (r.price_change - cfg.price_fall_threshold))]
    else [])

/-- `SentimentEventDetector.detect` (lines 102-140): optional symbol filter,
one shared `event_time`, and the concatenation of the three sub-detections. -/
def sentimentDetect (cfg : SentimentConfig) (now : DateTime) (symbol : Option String)
    (rows : List HotRow) : List FinancialEvent :=
  let df := match symbol with
    | none => rows
    | some s => rows.filter fun r => r.code == s
  let event_time := get_current_time_second now
  detect_rank_change_events cfg df event_time
    ++ detect_top_rank_events cfg df event_time
    ++ detect_price_fluct_events cfg df event_time

end TradingAgents

namespace TradingAgents

/-! ### Claim C1 — rule/event field matching -/

def exRule : UserRule := ⟨"trading", "limit_up", "000001"⟩

def exEventUpper : StoredEvent := ⟨"TRADING", "limit_up", "000001", "2025-06-15 10:00:00"⟩

def exEventLower : StoredEvent := ⟨"trading", "limit_up", "000001", "2025-06-15 10:00:00"⟩

def exEventOther : StoredEvent := ⟨"trading", "limit_up", "000002", "2025-06-15 10:00:00"⟩

/-- Claim C1, counterexample: the complete rule
`{event_type:"trading", event_subtype:"limit_up", related_stock:"000001"}` and a
stored event whose `event_type` is `"TRADING"` satisfy the claimed
case-insensitive field equality, yet the query built by
`get_recent_events_by_user_rule` does not match the event: only the rule side
is lower-cased, and the stored event's field is compared exactly. -/
theorem rule_match_case_insensitive_fails :
    ruleComplete exRule = true
    ∧ ruleFieldSpecMatch exRule exEventUpper = true
    ∧ ruleFieldQueryMatch exRule exEventUpper = false := by
  decide

/-- Claim C1 (amended): for every rule with non-empty matching fields, the
query of `get_recent_events_by_user_rule` matches a stored event iff the
case-insensitive comparison of the claim holds AND the stored event's
`event_type`/`event_subtype` are themselves already lower-case (the code
normalizes only the rule side; `symbol` is compared exactly against the
stripped `related_stock`). -/
theorem rule_match_rule_side_lowercased (rule : UserRule) (e : StoredEvent)
    (_hc : ruleComplete rule = true) :
    ruleFieldQueryMatch rule e = true ↔
      (ruleFieldSpecMatch rule e = true
        ∧ e.event_type = lowerStr e.event_type
        ∧ e.event_subtype = lowerStr e.event_subtype) := by
  simp only [ruleFieldQueryMatch, ruleFieldSpecMatch, Bool.and_eq_true, beq_iff_eq]
  constructor
  · rintro ⟨⟨h1, h2⟩, h3⟩
    refine ⟨⟨⟨?_, ?_⟩, h3⟩, ?_, ?_⟩
    · rw [h1, lowerStr_idem]
    · rw [h2, lowerStr_idem]
    · rw [h1, lowerStr_idem]
    · rw [h2, lowerStr_idem]
  · rintro ⟨⟨⟨g1, g2⟩, g3⟩, k1, k2⟩
    refine ⟨⟨?_, ?_⟩, g3⟩
    · rw [k1]
      exact g1
    · rw [k2]
      exact g2

/-- Claim C1, witness: the amended equivalence evaluated on the concrete rule
of the claim; the lower-case event with symbol `"000001"` matches and the
otherwise-identical event with symbol `"000002"` does not. -/
theorem rule_match_rule_side_lowercased_witness :
    ruleFieldQueryMatch exRule exEventLower = true
    ∧ ruleFieldQueryMatch exRule exEventOther = false := by
  refine ⟨(rule_match_rule_side_lowercased exRule exEventLower (by decide)).mpr ?_, by decide⟩
  refine ⟨by decide, by decide, by decide⟩

/-! ### Claim C7 — event-id determinism and structure -/

/-- Claim C7: `generate_event_id` is a pure function of
`(symbol, event_time, event_subtype)` (two calls with equal inputs give equal
output), and its output is the symbol, the compacted time, and the subtype
joined by underscores, where the compacted time has at most 15 characters and
contains no `-`, `:` or space character. -/
theorem generate_event_id_props (symbol event_time event_subtype : String) :
    generate_event_id symbol event_time event_subtype
        = symbol ++ "_" ++ compactTime event_time ++ "_" ++ event_subtype
    ∧ (compactTime event_time).length ≤ 15
    ∧ (∀ c ∈ (compactTime event_time).data, c ≠ '-' ∧ c ≠ ':' ∧ c ≠ ' ')
    ∧ (∀ s t u, s = symbol → t = event_time → u = event_subtype →
        generate_event_id s t u = generate_event_id symbol event_time event_subtype) := by
  refine ⟨rfl, ?_, ?_, ?_⟩
  · have hlen : (compactTime event_time).length
        = ((((event_time.data.filter fun c => c != '-').filter fun c => c != ':').map
            fun c => if c == ' ' then '_' else c).take 15).length := rfl
    rw [hlen, List.length_take]
    exact min_le_left _ _
  · intro c hc
    have hc' : c ∈ ((event_time.data.filter fun c => c != '-').filter
        fun c => c != ':').map fun c => if c == ' ' then '_' else c :=
      List.mem_of_mem_take hc
    rcases List.mem_map.mp hc' with ⟨b, hb, rfl⟩
    rcases List.mem_filter.mp hb with ⟨hb', hcolon⟩
    rcases List.mem_filter.mp hb' with ⟨-, hdash⟩
    by_cases hsp : b == ' '
    · rw [if_pos hsp]
      exact ⟨by decide, by decide, by decide⟩
    · rw [if_neg hsp]
      exact ⟨bne_iff_ne.mp hdash, bne_iff_ne.mp hcolon, fun h => hsp (by rw [h]; rfl)⟩
  · intro s t u h1 h2 h3
    rw [h1, h2, h3]

/-- Claim C7, witness: the structure theorem evaluated on a concrete call,
together with the fully evaluated id. -/
theorem generate_event_id_props_witness :
    generate_event_id "600519" "2025-06-15 09:30:00" "price_jump"
        = "600519" ++ "_" ++ compactTime "2025-06-15 09:30:00" ++ "_" ++ "price_jump"
    ∧ ('2' ≠ '-' ∧ '2' ≠ ':' ∧ '2' ≠ ' ')
    ∧ generate_event_id "600519" "2025-06-15 09:30:00" "price_jump"
        = "600519_20250615_093000_price_jump" := by
  refine ⟨(generate_event_id_props "600519" "2025-06-15 09:30:00" "price_jump").1,
    (generate_event_id_props "600519" "2025-06-15 09:30:00" "price_jump").2.2.1 '2'
      (by decide), by decide⟩

/-! ### Claim C9 — macro-news sentiment boundary -/

/-- Claim C9, counterexample: a news text containing two positive keywords
(`上调`, `增长`) and two negative keywords (`下调`, `下跌`) — net keyword count
zero — is classified `"positive"`, so a non-neutral sentiment does not require
a net count of at least 2: `_judge_sentiment` compares the gross counts. -/
theorem judge_sentiment_gross_count_counterexample :
    judge_sentiment "上调增长下调下跌" = "positive"
    ∧ posKeywordCount "上调增长下调下跌" = 2
    ∧ negKeywordCount "上调增长下调下跌" = 2 := by
  decide

/-- Claim C9 (amended): the classifier returns `"neutral"` iff the gross
positive-keyword count and the gross negative-keyword count are both below 2
(positive is checked first); in particular a text with at most 1 positive
keyword and 0 negative keywords is neutral. -/
theorem judge_sentiment_neutral_iff (content : String) :
    (judge_sentiment content = "neutral" ↔
      posKeywordCount content < 2 ∧ negKeywordCount content < 2)
    ∧ (posKeywordCount content ≤ 1 → negKeywordCount content = 0 →
        judge_sentiment content = "neutral") := by
  constructor
  · constructor
    · intro h
      unfold judge_sentiment at h
      split_ifs at h with h1 h2
      · exact absurd h (by decide)
      · exact absurd h (by decide)
      · omega
    · rintro ⟨h1, h2⟩
      unfold judge_sentiment
      rw [if_neg (by omega), if_neg (by omega)]
  · intro h1 h2
    unfold judge_sentiment
    rw [if_neg (by omega), if_neg (by omega)]

/-- Claim C9, witness: a text containing exactly one positive keyword (`上调`)
and no negative keyword is classified neutral, via the amended theorem. -/
theorem judge_sentiment_neutral_iff_witness :
    judge_sentiment "央行宣布上调利率" = "neutral" :=
  (judge_sentiment_neutral_iff "央行宣布上调利率").2 (by decide) (by decide)

/-! ### Claim C5 — five-minute window boundary -/

/-- Claim C5: for every event whose `event_time` parses under
`"%Y-%m-%d %H:%M:%S"`, the event is inside the rule-matching window exactly
when its time is at most 5 minutes (300 seconds) before `now`; an event whose
`event_time` does not parse is skipped (the check is `false`, no error). -/
theorem rule_window_boundary (nowSecs : ℕ) (e : StoredEvent) :
    (∀ dt, parseEventTime e.event_time = some dt →
      (eventInWindow nowSecs e = true ↔ nowSecs ≤ dtToSecs dt + 300))
    ∧ (parseEventTime e.event_time = none → eventInWindow nowSecs e = false) := by
  constructor
  · intro dt hdt
    unfold eventInWindow
    rw [hdt]
    exact decide_eq_true_iff
  · intro h
    unfold eventInWindow
    rw [h]

def exNow : DateTime := ⟨2025, 6, 15, 10, 5, 0⟩

def ev299 : StoredEvent := ⟨"trading", "limit_up", "000001", "2025-06-15 10:00:01"⟩

def ev301 : StoredEvent := ⟨"trading", "limit_up", "000001", "2025-06-15 09:59:59"⟩

def evBadTime : StoredEvent := ⟨"trading", "limit_up", "000001", "not a time"⟩

/-- Claim C5, witness: with `now = 2025-06-15 10:05:00`, an event 4 minutes
59 seconds earlier is in the window, an event 5 minutes 1 second earlier is
not, and an unparseable `event_time` is skipped. -/
theorem rule_window_boundary_witness :
    eventInWindow (dtToSecs exNow) ev299 = true
    ∧ eventInWindow (dtToSecs exNow) ev301 = false
    ∧ eventInWindow (dtToSecs exNow) evBadTime = false := by
  refine ⟨((rule_window_boundary (dtToSecs exNow) ev299).1 ⟨2025, 6, 15, 10, 0, 1⟩
      (by decide)).mpr (by decide),
    by decide,
    (rule_window_boundary (dtToSecs exNow) evBadTime).2 (by decide)⟩

/-! ### Claim C2 — threshold floor invariant -/

/-- Claim C2, counterexample: the volatility threshold has no
`max(quantile, default)` clamp — on the non-empty one-element return sample
`[1/1000]` the computed threshold is `1/1000`, strictly below the configured
default `0.02` for that metric, and differs from `max(quantile, default)`. -/
theorem volatility_threshold_below_default :
    calc_volatility_threshold [1 / 1000] = 1 / 1000
    ∧ calc_volatility_threshold [1 / 1000] < 1 / 50
    ∧ calc_volatility_threshold [1 / 1000]
        ≠ max (quantileInterp (95 / 100) [1 / 1000]) (1 / 50) := by
  norm_num [calc_volatility_threshold, quantileInterp, sortAsc, insertSorted,
    abs_of_pos]

/-- Claim C2 (amended): the `max(quantile, default)` floor holds for the two
company-event thresholds — the profit-change threshold is always at least its
default 20 and the unlock-ratio threshold at least its default 5, each equal
to `max(percentile, default)` on a non-empty sample — while the price-jump and
volatility thresholds return the raw quantile with no floor (volatility falls
back to its default only on an empty sample). -/
theorem company_threshold_floor (xs ys : List ℚ) :
    20 ≤ calc_profit_change_threshold xs
    ∧ 5 ≤ calc_unlock_ratio_threshold ys
    ∧ (xs ≠ [] → calc_profit_change_threshold xs = max (npPercentile (90 / 100) xs) 20)
    ∧ (ys ≠ [] → calc_unlock_ratio_threshold ys = max (npPercentile (90 / 100) ys) 5) := by
  refine ⟨?_, ?_, ?_, ?_⟩
  · unfold calc_profit_change_threshold
    split
    · exact le_refl 20
    · exact le_max_right _ _
  · unfold calc_unlock_ratio_threshold
    split
    · exact le_refl 5
    · exact le_max_right _ _
  · intro h
    simp [calc_profit_change_threshold, h]
  · intro h
    simp [calc_unlock_ratio_threshold, h]

/-- Claim C2, witness: the floor theorem evaluated on concrete non-empty
samples. -/
theorem company_threshold_floor_witness :
    20 ≤ calc_profit_change_threshold [50]
    ∧ calc_profit_change_threshold [50] = max (npPercentile (90 / 100) [50]) 20
    ∧ calc_unlock_ratio_threshold [10] = max (npPercentile (90 / 100) [10]) 5 :=
  ⟨(company_threshold_floor [50] [10]).1,
    (company_threshold_floor [50] [10]).2.2.1 (by decide),
    (company_threshold_floor [50] [10]).2.2.2 (by decide)⟩

/-! ### Claim C4 — company thresholds use the wrong percentile -/

/-- Claim C4: on the extracted sample `[0, 100]` the intended threshold (the
90th percentile clamped below by the default, as the code's own configuration
comments and event descriptions state) is `max(90, 20) = 90`, but
`_calc_profit_change_threshold` divides the configured 90 by 100 before
calling `np.percentile`, so it computes the 0.9th percentile `0.9` and returns
`max(0.9, 20) = 20`; `_calc_unlock_ratio_threshold` likewise returns its
default 5 instead of 90. -/
theorem company_percentile_divided_twice :
    calc_profit_change_threshold [0, 100] = 20
    ∧ specProfitChangeThreshold [0, 100] = 90
    ∧ npPercentile (90 / 100) [0, 100] = 9 / 10
    ∧ calc_unlock_ratio_threshold [0, 100] = 5
    ∧ specUnlockRatioThreshold [0, 100] = 90 := by
  norm_num [calc_profit_change_threshold, specProfitChangeThreshold,
    calc_unlock_ratio_threshold, specUnlockRatioThreshold, npPercentile,
    quantileInterp, sortAsc, insertSorted]

/-! ### Claim C3 — detector isolation -/

/-- Claim C3, counterexample: `EventManager.detect_all_events` has no
exception handling, so when the trading detector's call raises, the sweep
returns that error and the company detector's event is lost — the remaining
detectors are aborted. -/
theorem detect_all_events_aborts_on_error :
    detect_all_events (Except.error "trading detector raised" : Except String (List String))
        (Except.ok ["company_event"]) (Except.ok []) (Except.ok []) (Except.ok [])
      = Except.error "trading detector raised"
    ∧ ∀ l : List String,
        detect_all_events (Except.error "trading detector raised" : Except String (List String))
            (Except.ok ["company_event"]) (Except.ok []) (Except.ok []) (Except.ok [])
          ≠ Except.ok l := by
  have h1 : detect_all_events
      (Except.error "trading detector raised" : Except String (List String))
      (Except.ok ["company_event"]) (Except.ok []) (Except.ok []) (Except.ok [])
      = Except.error "trading detector raised" := rfl
  exact ⟨h1, fun l h => Except.noConfusion (h1.symm.trans h)⟩

/-- Claim C3 (amended): a data-provider failure is isolated — it is caught
inside the detector, which returns an empty list for the affected symbol,
while detection for another symbol with available data returns that symbol's
own events, and a sweep in which every detector returns normally concatenates
all their events — but an exception that escapes a detector propagates through
`detect_all_events` and aborts the remaining detectors. -/
theorem detector_data_failure_isolated {Ind Rt α : Type}
    (getDailyIndicators : String → Option Ind) (getRealTimeData : String → Option Rt)
    (detectFromData : String → Ind → Rt → List α) (symA symB : String)
    (indB : Ind) (rtB : Rt)
    (hA : getDailyIndicators symA = none)
    (hBi : getDailyIndicators symB = some indB)
    (hBr : getRealTimeData symB = some rtB) :
    tradingDetect getDailyIndicators getRealTimeData detectFromData symA = []
    ∧ tradingDetect getDailyIndicators getRealTimeData detectFromData symB
        = detectFromData symB indB rtB
    ∧ ∀ lt lc li ls ln : List α,
        detect_all_events (Except.ok lt : Except String (List α)) (Except.ok lc)
            (Except.ok li) (Except.ok ls) (Except.ok ln)
          = Except.ok ((((lt ++ lc) ++ li) ++ ls) ++ ln) := by
  refine ⟨?_, ?_, fun lt lc li ls ln => rfl⟩
  · unfold tradingDetect
    rw [hA]
  · unfold tradingDetect
    rw [hBi, hBr]

def wGetInd : String → Option Unit := fun s => if s = "000001" then none else some ()

def wGetRt : String → Option Unit := fun _ => some ()

def wDetectFrom : String → Unit → Unit → List String := fun s _ _ => [s ++ "_price_jump"]

/-- Claim C3, witness: the isolation theorem at a concrete provider that fails
for symbol `000001` but has data for `000002`. -/
theorem detector_data_failure_isolated_witness :
    tradingDetect wGetInd wGetRt wDetectFrom "000001" = []
    ∧ tradingDetect wGetInd wGetRt wDetectFrom "000002" = ["000002_price_jump"] := by
  have h := detector_data_failure_isolated wGetInd wGetRt wDetectFrom "000001" "000002"
    () () (by decide) (by decide) (by decide)
  exact ⟨h.1, h.2.1⟩

/-! ### Claim C6 — upsert idempotence -/

/-- Claim C6: if the store holds no document with the key of `d`, then after
upserting `d` exactly one stored document carries that key; upserting a second
document `d'` with the same `(event_id, event_time)` key (in particular `d`
itself again) leaves the store unchanged — the fields written by the first
upsert are not overwritten — and the unordered bulk write of `[d, d']` has
exactly the same per-document effect. -/
theorem upsert_idempotent_no_overwrite (store : List EventDoc) (d d' : EventDoc)
    (habsent : countKey store d.event_id d.event_time = 0)
    (hid : d'.event_id = d.event_id) (htime : d'.event_time = d.event_time) :
    countKey (upsertIfAbsent store d) d.event_id d.event_time = 1
    ∧ upsertIfAbsent (upsertIfAbsent store d) d' = upsertIfAbsent store d
    ∧ bulkUpsertIfAbsent store [d, d'] = upsertIfAbsent store d := by
  have hany : store.any (keyMatches d.event_id d.event_time) = false := by
    rw [List.any_eq_false]
    intro x hx
    exact List.countP_eq_zero.mp habsent x hx
  have h1 : upsertIfAbsent store d = store ++ [d] := by
    unfold upsertIfAbsent
    rw [hany]
    simp
  have hself : keyMatches d.event_id d.event_time d = true := by
    simp [keyMatches]
  have hsecond : upsertIfAbsent (upsertIfAbsent store d) d' = upsertIfAbsent store d := by
    rw [h1]
    have h2 : (store ++ [d]).any (keyMatches d'.event_id d'.event_time) = true := by
      rw [List.any_eq_true]
      exact ⟨d, by simp, by simp [keyMatches, hid, htime]⟩
    unfold upsertIfAbsent
    rw [h2]
    simp
  refine ⟨?_, hsecond, hsecond⟩
  rw [h1]
  unfold countKey
  rw [List.countP_append]
  have hz : store.countP (keyMatches d.event_id d.event_time) = 0 := habsent
  rw [hz]
  simp [List.countP_cons, hself]

def wDoc : EventDoc :=
  ⟨"600519_20250615_093000_price_jump", "2025-06-15 09:30:00", "600519",
    "trading", "price_jump", "first detection"⟩

def wDocLater : EventDoc :=
  { wDoc with event_description := "second detection of the same fact" }

/-- Claim C6, witness: the idempotence theorem on an empty store with a
concrete event document and a key-equal document carrying different fields. -/
theorem upsert_idempotent_no_overwrite_witness :
    countKey (upsertIfAbsent [] wDoc) wDoc.event_id wDoc.event_time = 1
    ∧ upsertIfAbsent (upsertIfAbsent [] wDoc) wDocLater = upsertIfAbsent [] wDoc
    ∧ bulkUpsertIfAbsent [] [wDoc, wDocLater] = upsertIfAbsent [] wDoc :=
  upsert_idempotent_no_overwrite [] wDoc wDocLater (by decide) (by decide) (by decide)

/-! ### Claim C8 — render-or-suppress -/

theorem processMatchedItem_snd (g : UserRule → StoredEvent → Except String String)
    (u n : String) (acc : ReminderStats × List ReminderDoc) (item : MatchedItem) :
    (processMatchedItem g u n acc item).2 = acc.2 ++ itemReminders g u n item := by
  rcases item with ⟨rule, events⟩
  cases events with
  | nil => simp [processMatchedItem, itemReminders]
  | cons e rest =>
    cases hg : g rule e with
    | error s => simp [processMatchedItem, itemReminders, hg]
    | ok content =>
      by_cases hc : content = "暂无提醒"
      · simp [processMatchedItem, itemReminders, hg, hc]
      · simp [processMatchedItem, itemReminders, hg, hc]

theorem foldl_processMatchedItem_snd (g : UserRule → StoredEvent → Except String String)
    (u n : String) (items : List MatchedItem) :
    ∀ acc : ReminderStats × List ReminderDoc,
      (items.foldl (processMatchedItem g u n) acc).2
        = acc.2 ++ items.flatMap (itemReminders g u n) := by
  induction items with
  | nil =>
    intro acc
    simp
  | cons item items ih =>
    intro acc
    rw [List.foldl_cons, ih, processMatchedItem_snd]
    simp

theorem itemReminders_user_id (g : UserRule → StoredEvent → Except String String)
    (u n : String) (item : MatchedItem) :
    ∀ doc ∈ itemReminders g u n item, doc.user_id = u := by
  rcases item with ⟨rule, events⟩
  intro doc hd
  cases events with
  | nil => simp [itemReminders] at hd
  | cons e rest =>
    cases hg : g rule e with
    | error s => simp [itemReminders, hg] at hd
    | ok content =>
      by_cases hc : content = "暂无提醒"
      · simp [itemReminders, hg, hc] at hd
      · simp [itemReminders, hg, hc] at hd
        rw [hd]
        rfl

/-- Claim C8: the notification documents persisted by
`generate_and_save_reminder` are exactly the per-item contributions, where a
matched (rule, event) pair whose collaborator call returns the sentinel
`暂无提醒` contributes no document, a pair whose call returns any other text
contributes exactly the one notification built from that text and event, and
every persisted document carries the processed user's id. -/
theorem reminder_render_or_suppress
    (g : UserRule → StoredEvent → Except String String) (u n : String)
    (items : List MatchedItem) (rule : UserRule) (event : StoredEvent)
    (rest : List StoredEvent) :
    (generate_and_save_reminder g u n items).2 = items.flatMap (itemReminders g u n)
    ∧ (g rule event = Except.ok "暂无提醒" →
        itemReminders g u n ⟨rule, event :: rest⟩ = [])
    ∧ (∀ content, g rule event = Except.ok content → content ≠ "暂无提醒" →
        itemReminders g u n ⟨rule, event :: rest⟩ = [mkReminderDoc u n content event])
    ∧ (∀ doc ∈ (generate_and_save_reminder g u n items).2, doc.user_id = u) := by
  have hmain : (generate_and_save_reminder g u n items).2
      = items.flatMap (itemReminders g u n) := by
    unfold generate_and_save_reminder
    rw [foldl_processMatchedItem_snd]
    simp
  refine ⟨hmain, ?_, ?_, ?_⟩
  · intro h
    simp [itemReminders, h]
  · intro content h hne
    simp [itemReminders, h, hne]
  · intro doc hd
    rw [hmain, List.mem_flatMap] at hd
    rcases hd with ⟨item, -, hd⟩
    exact itemReminders_user_id g u n item doc hd

def wReminderRule : UserRule := ⟨"macro", "macro_央行政策", "央行政策"⟩

def wOtherRule : UserRule := ⟨"trading", "limit_up", "000001"⟩

def wEventA : StoredEvent := ⟨"macro", "macro_央行政策", "央行政策", "2025-12-19 17:19:30"⟩

def wEventB : StoredEvent := ⟨"trading", "limit_up", "000001", "2025-12-19 17:20:00"⟩

def wGpt : UserRule → StoredEvent → Except String String := fun _ e =>
  if e.symbol = "央行政策" then Except.ok "央行政策重要提醒" else Except.ok "暂无提醒"

def wItems : List MatchedItem := [⟨wReminderRule, [wEventA]⟩, ⟨wOtherRule, [wEventB]⟩]

/-- Claim C8, witness: a collaborator that renders text for the macro pair and
the sentinel for the trading pair persists exactly the macro notification. -/
theorem reminder_render_or_suppress_witness :
    (generate_and_save_reminder wGpt "user1" "2025-12-19 17:21:00" wItems).2
        = wItems.flatMap (itemReminders wGpt "user1" "2025-12-19 17:21:00")
    ∧ itemReminders wGpt "user1" "2025-12-19 17:21:00" ⟨wOtherRule, [wEventB]⟩ = []
    ∧ itemReminders wGpt "user1" "2025-12-19 17:21:00" ⟨wReminderRule, [wEventA]⟩
        = [mkReminderDoc "user1" "2025-12-19 17:21:00" "央行政策重要提醒" wEventA] :=
  ⟨(reminder_render_or_suppress wGpt "user1" "2025-12-19 17:21:00" wItems
      wOtherRule wEventB []).1,
    (reminder_render_or_suppress wGpt "user1" "2025-12-19 17:21:00" wItems
      wOtherRule wEventB []).2.1 (by simp [wGpt, wEventB]),
    (reminder_render_or_suppress wGpt "user1" "2025-12-19 17:21:00" wItems
      wReminderRule wEventA []).2.2.1 "央行政策重要提醒" (by simp [wGpt, wEventA])
      (by decide)⟩

/-! ### Claim C10 — shared fixed sentiment event time -/

theorem mem_ite_singleton {c : Prop} [Decidable c] {x ev : FinancialEvent}
    (h : ev ∈ if c then [x] else []) : ev = x := by
  split at h
  · exact List.mem_singleton.mp h
  · exact absurd h (List.not_mem_nil _)

theorem mem_rank_change_time (cfg : SentimentConfig) (rows : List HotRow)
    (t : String) (ev : FinancialEvent)
    (h : ev ∈ detect_rank_change_events cfg rows t) : ev.event_time = t := by
  unfold detect_rank_change_events at h
  rw [List.mem_flatMap] at h
  obtain ⟨r, -, hev⟩ := h
  rcases List.mem_append.mp hev with h | h
  · rw [mem_ite_singleton h]
    rfl
  · rw [mem_ite_singleton h]
    rfl

theorem mem_top_rank_time (cfg : SentimentConfig) (rows : List HotRow)
    (t : String) (ev : FinancialEvent)
    (h : ev ∈ detect_top_rank_events cfg rows t) : ev.event_time = t := by
  unfold detect_top_rank_events at h
  rw [List.mem_flatMap] at h
  obtain ⟨r, -, hev⟩ := h
  rcases List.mem_append.mp hev with h | h
  · rcases List.mem_append.mp h with h | h
    · rcases List.mem_append.mp h with h | h
      · rw [mem_ite_singleton h]
        rfl
      · rw [mem_ite_singleton h]
        rfl
    · rw [mem_ite_singleton h]
      rfl
  · rw [mem_ite_singleton h]
    rfl

theorem mem_price_fluct_time (cfg : SentimentConfig) (rows : List HotRow)
    (t : String) (ev : FinancialEvent)
    (h : ev ∈ detect_price_fluct_events cfg rows t) : ev.event_time = t := by
  unfold detect_price_fluct_events at h
  rw [List.mem_flatMap] at h
  obtain ⟨r, -, hev⟩ := h
  rcases List.mem_append.mp hev with h | h
  · rw [mem_ite_singleton h]
    rfl
  · rw [mem_ite_singleton h]
    rfl

/-- Claim C10: every event emitted by one `SentimentEventDetector.detect` call
carries the one `event_time` computed for the sweep, and that string is the
current calendar date with the time component fixed at `08:56:30`, independent
of the wall-clock hour/minute/second of `now`. -/
theorem sentiment_events_share_fixed_time (cfg : SentimentConfig) (now : DateTime)
    (symbol : Option String) (rows : List HotRow) (ev : FinancialEvent)
    (h : ev ∈ sentimentDetect cfg now symbol rows) :
    ev.event_time = get_current_time_second now
    ∧ ev.event_time
        = pad4 now.year ++ "-" ++ pad2 now.month ++ "-" ++ pad2 now.day ++ " 08:56:30" := by
  have ht : ev.event_time = get_current_time_second now := by
    unfold sentimentDetect at h
    rcases List.mem_append.mp h with h1 | h1
    · rcases List.mem_append.mp h1 with h2 | h2
      · exact mem_rank_change_time _ _ _ _ h2
      · exact mem_top_rank_time _ _ _ _ h2
    · exact mem_price_fluct_time _ _ _ _ h1
  refine ⟨ht, ht.trans ?_⟩
  show formatDateTime ⟨now.year, now.month, now.day, 8, 56, 30⟩ = _
  unfold formatDateTime
  have h8 : pad2 8 = "08" := rfl
  have h56 : pad2 56 = "56" := rfl
  have h30 : pad2 30 = "30" := rfl
  simp only [h8, h56, h30, String.append_assoc]
  rfl

def wNow : DateTime := ⟨2025, 12, 19, 17, 19, 30⟩

def wHotRow : HotRow := ⟨1500, 1, 0, "SZ000001", "平安银行"⟩

def wTopEvent : FinancialEvent :=
  mkSentEvent "SZ000001" "top1_rank" (get_current_time_second wNow) "positive" "critical"

/-- Claim C10, witness: with `now = 2025-12-19 17:19:30`, the hot-list leader
produces a `top1_rank` event whose time is `2025-12-19 08:56:30` — the date of
`now` with the fixed time, not the wall-clock time. -/
theorem sentiment_events_share_fixed_time_witness :
    wTopEvent ∈ sentimentDetect defaultSentimentConfig wNow none [wHotRow]
    ∧ wTopEvent.event_time = "2025-12-19 08:56:30" := by
  have hmem : wTopEvent ∈ sentimentDetect defaultSentimentConfig wNow none [wHotRow] := by
    decide
  exact ⟨hmem, ((sentiment_events_share_fixed_time defaultSentimentConfig wNow none
    [wHotRow] wTopEvent hmem).2).trans (by decide)⟩

end TradingAgents
